import Mathlib

/-!
Verification development for the backlog-backup repository.

This file gives a shallow embedding, in Lean, of the backup synchronization
engine of the repository (the API client transport, the issue enumeration,
the attachment downloads, the filename sanitization, the issue / wiki / files
exporters, the git / svn repository mirroring, and the CLI orchestrator), and
proves or refutes the frozen claims about it.

Conventions of the embedding:
- Python strings are Lean `String` (or `List Char` where character-level
  reasoning is needed); filesystem paths are lists of components
  (`List String`).
- The HTTP layer is modelled by a scripted list of `HttpResponse` values:
  the n-th element is the response the server gives to the n-th request the
  client sends.  An empty script during an unbounded retry loop is reported
  with the artificial outcome `exhausted`.
- Exceptions are modelled with `Except` or with an `Option PyErr` component;
  filesystem side effects are collected in a `List FsOp` trace.
-/

namespace BacklogBackup

/-! ## HTTP transport (src/backlog_backup/api/client.py, `_make_request`) -/

/-- A structured (JSON) payload is modelled as a flat association list of
string fields; a binary payload is a list of byte values. -/
inductive Payload where
  | json (fields : List (String × String))
  | bytes (content : List Nat)
deriving DecidableEq

/-- One HTTP response from the remote service, as the transport sees it:
status code, the optional numeric Retry-After header, whether the
Content-Type header starts with application/json, whether the body parses
as JSON, and the two readings of the body. -/
structure HttpResponse where
  status : Nat
  retryAfterHeader : Option Nat
  contentTypeJson : Bool
  bodyParses : Bool
  jsonBody : List (String × String)
  rawContent : List Nat
deriving DecidableEq

/-- Outcome of `_make_request`.
`success` carries the decoded payload; `apiRawError` is the exception
`ValueError("API request failed: ...")` that carries only the raw message;
`apiDetailError` is the exception `ValueError("API Error: {detail}")` that
carries the parsed error body; `exhausted` is an artifact of the scripted
response list running out while the code would still be retrying. -/
inductive RequestOutcome where
  | success (payload : Payload)
  | apiRawError (status : Nat)
  | apiDetailError (status : Nat) (detail : List (String × String))
  | exhausted
deriving DecidableEq

/-- Decoding of a successful response (client.py lines 78-81): a JSON
Content-Type yields the structured payload, anything else the raw bytes. -/
def decodePayload (r : HttpResponse) : Payload :=
  if r.contentTypeJson then Payload.json r.jsonBody else Payload.bytes r.rawContent

/-- Shallow embedding of `_make_request` (client.py lines 59-91) over a
scripted list of responses.  Returns the outcome together with the list of
sleep durations performed (one entry per `time.sleep` call).

- On status 429 the code reads `int(response.headers.get("Retry-After", 60))`,
  sleeps that long and recursively retries the same request (lines 70-74);
  here that consumes the next scripted response.
- `response.raise_for_status()` raises for statuses in [400, 600); the
  `except RequestException` block then always raises
  `ValueError("API request failed: ...")`: the inner
  `raise ValueError("API Error: {error_detail}")` on line 88 is itself caught
  by the `except (ValueError, KeyError): pass` on lines 89-90, so the parsed
  detail never escapes.  The embedding therefore returns `apiRawError`
  on that path, never `apiDetailError`.
- Other statuses fall through to payload decoding. -/
def makeRequest : List HttpResponse → RequestOutcome × List Nat
  | [] => (RequestOutcome.exhausted, [])
  | r :: rest =>
    if r.status = 429 then
      let d := r.retryAfterHeader.getD 60
      let (out, sleeps) := makeRequest rest
      (out, d :: sleeps)
    else if 400 ≤ r.status ∧ r.status < 600 then
      (RequestOutcome.apiRawError r.status, [])
    else
      (RequestOutcome.success (decodePayload r), [])

/-- The error outcome the specification describes for a non-2xx, non-429
response (spec section 4.1): the parsed detail when the body parses, the raw
message otherwise.  Stated from the words of the spec, for comparison with
the behaviour embedded in `makeRequest`. -/
def specifiedErrorOutcome (r : HttpResponse) : RequestOutcome :=
  if r.bodyParses then RequestOutcome.apiDetailError r.status r.jsonBody
  else RequestOutcome.apiRawError r.status

/-! ## Attachment downloads (client.py, `download_attachment` and
`download_wiki_attachment`) -/

/-- Shallow embedding of `download_attachment` (client.py lines 272-289)
applied to the payload the transport returned: bytes are returned unchanged,
a structured payload raises
`ValueError("Expected binary content for attachment download, ...")`. -/
def downloadAttachmentFrom (responseContent : Payload) : Except String (List Nat) :=
  match responseContent with
  | Payload.bytes b => Except.ok b
  | Payload.json _ => Except.error "Expected binary content for attachment download"

/-- Shallow embedding of `download_wiki_attachment` (client.py lines 328-339)
applied to the payload the transport returned: the body is just
`return self.get(endpoint)`, so the payload is returned unchanged with no
binary check at all. -/
def downloadWikiAttachmentFrom (responseContent : Payload) : Except String Payload :=
  Except.ok responseContent

/-! ## Issue enumeration (client.py, `get_issues`) -/

/-- Model of the remote issues endpoint (an external collaborator, spec
sections 4.2 and 6): the endpoint serves at most `pageCap` items per request,
honouring optional `offset` and `count` query parameters; when `count` is
absent the server is modelled as returning up to its cap (the reading most
generous to the client code).  Issues are identified by their numeric ids. -/
def issuesEndpointResponse (issues : List Nat) (pageCap : Nat)
    (params : List (String × Nat)) : List Nat :=
  let offset := (params.lookup "offset").getD 0
  let count := min ((params.lookup "count").getD pageCap) pageCap
  (issues.drop offset).take count

/-- The query parameters `get_issues` sends (client.py lines 219-229): only
the project id filter.  The source sets `params["projectId[]"]` and performs
a single `self.get("/issues", params=params)`; no `count` or `offset`
parameter is ever added and no loop surrounds the call. -/
def getIssuesRequestParams (projectId : Nat) : List (String × Nat) :=
  [("projectId", projectId)]

/-- Shallow embedding of `get_issues` (client.py lines 205-229) against the
modelled endpoint: one request, whose response is returned as the complete
result. -/
def getIssues (issues : List Nat) (pageCap : Nat) (projectId : Nat) : List Nat :=
  issuesEndpointResponse issues pageCap (getIssuesRequestParams projectId)

/-! ## Filename sanitization (wiki.py lines 86-95 and files.py lines 121-130,
`_sanitize_filename`) -/

/-- The character class of the regular expression used by both copies of
`_sanitize_filename`:  < > : double-quote / backslash | ? * . -/
def illegalFilenameChars : List Char :=
  ['<', '>', ':', '"', '/', '\\', '|', '?', '*']

/-- Python `str.strip(' .')`: remove the longest run of spaces and dots from
both ends of the string. -/
def stripSpaceDot (s : List Char) : List Char :=
  (((s.dropWhile (fun c => c = ' ' ∨ c = '.')).reverse.dropWhile
      (fun c => c = ' ' ∨ c = '.')).reverse)

/-- Common core of the two `_sanitize_filename` copies: substitute an
underscore for every illegal character, strip leading and trailing spaces
and dots, truncate to 200 characters when longer, and fall back to the given
generic name when the result is empty. -/
def sanitizeCore (fallback : List Char) (s : List Char) : List Char :=
  let subbed := s.map (fun c => if c ∈ illegalFilenameChars then '_' else c)
  let stripped := stripSpaceDot subbed
  let capped := if 200 < stripped.length then stripped.take 200 else stripped
  if capped = [] then fallback else capped

/-- `_sanitize_filename` of wiki.py (lines 86-95); its fallback name is
`unnamed_page`. -/
def wikiSanitizeFilename (s : String) : String :=
  ⟨sanitizeCore "unnamed_page".toList s.toList⟩

/-- `_sanitize_filename` of files.py (lines 121-130); its fallback name is
`unnamed_file`. -/
def filesSanitizeFilename (s : String) : String :=
  ⟨sanitizeCore "unnamed_file".toList s.toList⟩

/-! ## Attachment records and local attachment paths
(issues.py `_download_issue_attachments`, wiki.py `_download_wiki_attachments`) -/

/-- An attachment record as the exporters read it from the remote JSON:
`attachment.get('id')` and `attachment.get('name', ...)` are dictionary
lookups that may be absent. -/
structure AttachmentRec where
  id : Option Nat
  name : Option String
deriving DecidableEq

/-- The string Python renders for `attachment.get('id')` inside the f-string
`f"attachment_{attachment_id}"`: the number, or `None` when absent. -/
def attachmentIdStr (att : AttachmentRec) : String :=
  match att.id with
  | some i => toString i
  | none => "None"

/-- The local filename used for an issue attachment (issues.py line 133):
`attachment.get('name', f'attachment_{attachment_id}')` - the raw display
name, with no sanitization applied. -/
def issueAttachmentFilename (att : AttachmentRec) : String :=
  att.name.getD ("attachment_" ++ attachmentIdStr att)

/-- The local filename used for a wiki attachment (wiki.py line 128):
identical to the issue case - the raw display name, unsanitized. -/
def wikiAttachmentFilename (att : AttachmentRec) : String :=
  att.name.getD ("attachment_" ++ attachmentIdStr att)

/-- A filesystem side effect of the embedded code. -/
inductive FsOp where
  | mkdir (path : List String)
  | write (path : List String) (content : List Nat)
  | writeText (path : List String) (text : String)
deriving DecidableEq

/-- Shallow embedding of `_download_issue_attachments` (issues.py lines
117-148) as the trace of filesystem operations it performs.  `download i`
is the outcome of `client.download_attachment(issue_key, str(i))`.

- An empty attachment list returns immediately (lines 124-125).
- `attachments_dir = issues_dir / "attachments" / issue_key` is created
  (lines 127-128).
- Per attachment (lines 130-147): the filename defaults to
  `attachment_{id}`; the body runs only under `if attachment_id:`, which in
  Python is false for a missing id and for id 0; a download failure is
  caught by the inner `except` and merely logged. -/
def downloadIssueAttachmentsOps (download : Nat → Except String (List Nat))
    (issuesDir : List String) (issueKey : String)
    (atts : List AttachmentRec) : List FsOp :=
  if atts = [] then []
  else
    let attachmentsDir := issuesDir ++ ["attachments", issueKey]
    FsOp.mkdir attachmentsDir ::
      atts.flatMap (fun att =>
        let filename := issueAttachmentFilename att
        match att.id with
        | none => []
        | some i =>
          if i = 0 then []
          else
            match download i with
            | Except.ok content => [FsOp.write (attachmentsDir ++ [filename]) content]
            | Except.error _ => [])

/-- Shallow embedding of `_download_wiki_attachments` (wiki.py lines 111-143),
identical in structure to the issue case except that the subfolder is named
after the sanitized page name and the download goes through
`client.download_wiki_attachment(str(page_id), str(i))`. -/
def downloadWikiAttachmentsOps (download : Nat → Except String (List Nat))
    (wikiDir : List String) (safePageName : String)
    (atts : List AttachmentRec) : List FsOp :=
  if atts = [] then []
  else
    let attachmentsDir := wikiDir ++ ["attachments", safePageName]
    FsOp.mkdir attachmentsDir ::
      atts.flatMap (fun att =>
        let filename := wikiAttachmentFilename att
        match att.id with
        | none => []
        | some i =>
          if i = 0 then []
          else
            match download i with
            | Except.ok content => [FsOp.write (attachmentsDir ++ [filename]) content]
            | Except.error _ => [])

/-! ## Git and SVN repository mirroring (git.py `_clone_repository`,
svn.py `_backup_svn_repository`) -/

/-- Result of running an external process under a timeout. -/
inductive ProcResult where
  | exit (code : Nat)
  | timedOut
deriving DecidableEq

/-- The git command `_clone_repository` builds and runs (git.py lines
117-126):  `["git", "clone", "--mirror", url, str(repo_dir)]` with
`url = https://{domain}/git/{project_key}/{repo_name}.git` and
`repo_dir = git_dir / f"{repo_name}.git"`.  The source builds this command
unconditionally; no statement of the function inspects whether `repo_dir`
already exists on disk, so the command is a constant function of the
`repoDirExists` argument that models the local filesystem state. -/
def cloneRepositoryCmd (domain projectKey repoName : String)
    (gitDir : List String) (repoDirExists : Bool) : List String :=
  ["git", "clone", "--mirror",
   "https://" ++ domain ++ "/git/" ++ projectKey ++ "/" ++ repoName ++ ".git",
   String.intercalate "/" (gitDir ++ [repoName ++ ".git"])]

/-- The svn command `_backup_svn_repository` builds and runs (svn.py lines
117-139): `svn checkout` of `https://{domain}/svn/{project_key}/{repo_name}`
into `svn_dir / repo_name`, with non-interactive flags, plus username and
password arguments when credentials are supplied.  As in the git case the
command is built unconditionally: the existence of the local directory is
never consulted. -/
def svnBackupCmd (domain projectKey repoName : String)
    (svnDir : List String) (creds : Option (String × String))
    (repoDirExists : Bool) : List String :=
  ["svn", "checkout",
   "https://" ++ domain ++ "/svn/" ++ projectKey ++ "/" ++ repoName,
   String.intercalate "/" (svnDir ++ [repoName]),
   "--non-interactive",
   "--trust-server-cert-failures=unknown-ca,cn-mismatch,expired,not-yet-valid,other"]
  ++ (match creds with
      | some (u, p) => ["--username", u, "--password", p]
      | none => [])

/-- Success predicate of `_clone_repository` (git.py lines 159-190) and of
`_backup_svn_repository` (svn.py lines 141-168): the function returns True
exactly when the subprocess exits with return code 0; a non-zero exit or a
`TimeoutExpired` is logged and reported as False. -/
def mirrorSucceeded : ProcResult → Bool
  | ProcResult.exit 0 => true
  | ProcResult.exit _ => false
  | ProcResult.timedOut => false

/-- Shallow embedding of the per-repository loop of `backup_git` (git.py
lines 61-83) and `backup_svn` (svn.py lines 61-83): every repository in the
listing is processed in order, each under its own try/except, so the outcome
of one repository never prevents the processing of its siblings.  `mirror r`
is the success value the per-repository helper returns for repository
name `r`. -/
def backupReposLoop (mirror : String → Bool) (repos : List String) :
    List (String × Bool) :=
  repos.map (fun r => (r, mirror r))

/-! ## Python values, exceptions and call binding (for the orchestrator) -/

/-- The Python values that flow through `backup_project` (cli.py lines
151-199): strings (domain, api key, project key) and `pathlib.Path` values
(the project output directory, modelled by its components). -/
inductive PyVal where
  | str (s : String)
  | path (components : List String)
deriving DecidableEq

/-- The Python exceptions the embedded fragments can raise, distinguished by
their runtime message:
- `typeErrorTooManyArgs`: "f() takes n positional arguments but m were given",
  raised at argument binding;
- `typeErrorUnsupportedDiv`: "unsupported operand type(s) for /", raised by
  `str / str`;
- `attributeError name`: attribute lookup failure;
- `valueError msg`: a `ValueError` raised by application code. -/
inductive PyErr where
  | typeErrorTooManyArgs
  | typeErrorUnsupportedDiv
  | attributeError (name : String)
  | valueError (msg : String)
deriving DecidableEq

/-- Python positional-argument binding for a function whose signature has
`requiredPos` parameters without defaults, `maxPos` positional parameters in
total, and a final `**kwargs` (which absorbs keyword arguments only, never
positional ones): a call with fewer than `requiredPos` or more than `maxPos`
positional arguments raises `TypeError` before the body runs. -/
def bindPositional (requiredPos maxPos : Nat) (args : List PyVal) :
    Except PyErr (List PyVal) :=
  if args.length < requiredPos ∨ maxPos < args.length then
    Except.error PyErr.typeErrorTooManyArgs
  else Except.ok args

/-- The `/` operator of `pathlib`: defined on `Path` values, a `TypeError`
on strings (Python defines no `__truediv__` on `str`). -/
def pyPathDiv (v : PyVal) (component : String) : Except PyErr PyVal :=
  match v with
  | PyVal.path cs => Except.ok (PyVal.path (cs ++ [component]))
  | PyVal.str _ => Except.error PyErr.typeErrorUnsupportedDiv

/-- The public and private methods `BacklogAPIClient` defines
(client.py lines 12-363), in source order. -/
def backlogClientMethods : List String :=
  ["_make_request", "get", "post", "put", "delete",
   "get_projects", "get_project", "_get_project_id",
   "get_issues", "get_issue", "get_issue_comments", "get_issue_attachments",
   "download_attachment",
   "get_wikis", "get_wiki", "get_wiki_attachments", "download_wiki_attachment",
   "get_git_repositories", "get_svn_repositories"]

/-- Python attribute lookup of a method name on a value: only a client
object resolves names from `backlogClientMethods`; strings and paths have
none of these attributes, so the lookup raises `AttributeError`.
The embedding here needs attribute lookup only on the values that actually
reach the exporters through `backup_project`, which are strings and paths. -/
def pyGetMethod (v : PyVal) (name : String) : Except PyErr Unit :=
  match v with
  | PyVal.str _ => Except.error (PyErr.attributeError name)
  | PyVal.path _ => Except.error (PyErr.attributeError name)

/-! ## The five exporters as invoked by the orchestrator (cli.py lines
178-192) -/

/-- The five entity exporters, in the fixed order `backup_project` invokes
them. -/
inductive Exporter where
  | issues
  | wiki
  | files
  | git
  | svn
deriving DecidableEq

/-- Positional parameters of each exporter, read off its `def` line:
`backup_issues`, `backup_wiki`, `backup_files` take
`(client, project_key, output_dir, **kwargs)` - three positional parameters,
all required; `backup_git` and `backup_svn` additionally take two optional
credential parameters - five positional parameters, three required. -/
def exporterRequiredPos : Exporter → Nat
  | _ => 3

/-- Maximum number of positional arguments each exporter accepts. -/
def exporterMaxPos : Exporter → Nat
  | Exporter.issues => 3
  | Exporter.wiki => 3
  | Exporter.files => 3
  | Exporter.git => 5
  | Exporter.svn => 5

/-- The subdirectory each exporter creates first under its `output_dir`
argument (issues.py line 34, wiki.py line 33, files.py line 33, git.py line
36, svn.py line 36). -/
def exporterSubdirName : Exporter → String
  | Exporter.issues => "issues"
  | Exporter.wiki => "wiki"
  | Exporter.files => "files"
  | Exporter.git => "git"
  | Exporter.svn => "svn"

/-- Shallow embedding of one exporter invocation, covering argument binding
and the body prologue every exporter shares: compute
`output_dir / <subdir>`, create it, then call `client.get_project(...)`.
The result is the raised exception (if any) together with the filesystem
operations performed before the raise.  The success branch marks the end of
the modelled prologue; every call site in `backup_project` passes a string
as `client`, so `pyGetMethod` fails there and the success branch is not
reachable from the embedded orchestrator. -/
def invokeExporter (e : Exporter) (args : List PyVal) :
    Option PyErr × List FsOp :=
  match bindPositional (exporterRequiredPos e) (exporterMaxPos e) args with
  | Except.error err => (some err, [])
  | Except.ok bound =>
    let client := bound.getD 0 (PyVal.str "")
    let outputDir := bound.getD 2 (PyVal.str "")
    match pyPathDiv outputDir (exporterSubdirName e) with
    | Except.error err => (some err, [])
    | Except.ok subdir =>
      let subdirComponents := match subdir with
        | PyVal.path cs => cs
        | PyVal.str s => [s]
      match pyGetMethod client "get_project" with
      | Except.error err => (some err, [FsOp.mkdir subdirComponents])
      | Except.ok _ => (none, [FsOp.mkdir subdirComponents])

/-- The positional arguments `backup_project` passes to every exporter it
invokes (cli.py lines 180, 183, 186, 189, 192):
`(domain, api_key, project_key, project_output_dir)` - the domain string and
the API-key string first, then the project key and the project output
directory. -/
def exporterCallArgs (domain apiKey projectKey : String)
    (projectOutputDir : List String) : List PyVal :=
  [PyVal.str domain, PyVal.str apiKey, PyVal.str projectKey,
   PyVal.path projectOutputDir]

/-! ## The orchestrator (cli.py `backup_project` and `main`) -/

/-- The per-domain selection flags, after cli.py lines 234-239 folded
`--all` into each of them. -/
structure Flags where
  issues : Bool
  wiki : Bool
  files : Bool
  git : Bool
  svn : Bool
deriving DecidableEq

/-- The exporters `backup_project` will attempt, in the order of its
`if` statements (cli.py lines 179-192). -/
def selectedExporters (f : Flags) : List Exporter :=
  (if f.issues then [Exporter.issues] else [])
  ++ (if f.wiki then [Exporter.wiki] else [])
  ++ (if f.files then [Exporter.files] else [])
  ++ (if f.git then [Exporter.git] else [])
  ++ (if f.svn then [Exporter.svn] else [])

/-- Runs the selected exporters in sequence inside a single try block, as
`backup_project` does: the first exporter that raises ends the sequence
(the statements after it in the try block never run).  Returns the exporters
actually invoked, the exception that reached the except clause (if any), and
the accumulated filesystem operations. -/
def runExporterSequence (run : Exporter → Option PyErr × List FsOp) :
    List Exporter → List Exporter × Option PyErr × List FsOp
  | [] => ([], none, [])
  | e :: rest =>
    match run e with
    | (some err, ops) => ([e], some err, ops)
    | (none, ops) =>
      let (invoked, caught, more) := runExporterSequence run rest
      (e :: invoked, caught, ops ++ more)

/-- Result of one `backup_project` call: which exporters were invoked, which
exception its except clause caught and logged (cli.py lines 196-199), and
the filesystem trace including the project directory creation of lines
175-176.  The function always returns normally: the except clause catches
`Exception` and only logs. -/
structure ProjectBackupResult where
  invoked : List Exporter
  caught : Option PyErr
  ops : List FsOp
deriving DecidableEq

/-- Shallow embedding of `backup_project` (cli.py lines 151-199),
parameterized by the behaviour `run` of one exporter invocation. -/
def backupProject (run : Exporter → Option PyErr × List FsOp) (flags : Flags)
    (projectDir : List String) : ProjectBackupResult :=
  let (invoked, caught, ops) := runExporterSequence run (selectedExporters flags)
  ⟨invoked, caught, FsOp.mkdir projectDir :: ops⟩

/-- Shallow embedding of the all-projects branch of `main` (cli.py lines
243-274): `backup_project` is called for every listed project key in order,
and the branch ends with `return 0`.  Because `backup_project` catches all
exporter exceptions, nothing in the loop raises and every project is
processed. -/
def mainAllProjects (runFor : String → Exporter → Option PyErr × List FsOp)
    (projectKeys : List String) (flags : Flags) (outputDir : List String) :
    List (String × ProjectBackupResult) × Nat :=
  (projectKeys.map (fun k => (k, backupProject (runFor k) flags (outputDir ++ [k]))), 0)

/-- Shallow embedding of the single-project branch of `main` (cli.py lines
276-289): one `backup_project` call, then `return 0`. -/
def mainSingleProject (run : Exporter → Option PyErr × List FsOp)
    (projectKey : String) (flags : Flags) (outputDir : List String) :
    ProjectBackupResult × Nat :=
  (backupProject run flags (outputDir ++ [projectKey]), 0)

/-- The exporter runner `backup_project` actually uses: each exporter is
invoked with `(domain, api_key, project_key, project_output_dir)` as its
positional arguments. -/
def cliExporterRun (domain apiKey projectKey : String)
    (projectOutputDir : List String) (e : Exporter) : Option PyErr × List FsOp :=
  invokeExporter e (exporterCallArgs domain apiKey projectKey projectOutputDir)

/-! ## Files exporter (files.py `backup_files` and `_backup_directory`) -/

/-- The remote shared-file hierarchy, as the hypothetical
`client.get_shared_files` would list it: each node is a file entry (name and
id) or a directory entry with its children.  `_backup_directory` recurses
into directory entries and downloads file entries. -/
inductive RemoteEntry where
  | file (name : String) (id : Nat)
  | dir (name : String) (children : List RemoteEntry)

mutual

/-- Shallow embedding of the body of `_backup_directory` (files.py lines
54-118) on one listing, given that the client defines the needed methods.
`hasDownload` records whether `download_shared_file` resolves on the client;
`download i` is its would-be result for file id `i`.

- A file entry (lines 87-103): sanitize the name, download, write the
  content and a sidecar `<name>.metadata.json`; any failure inside the inner
  try (including the `AttributeError` from a missing `download_shared_file`)
  is caught and logged, isolating the entry.
- A directory entry (lines 105-115): create the local subdirectory and
  recurse. -/
def backupEntryOps (hasDownload : Bool) (download : Nat → Except String (List Nat)) :
    RemoteEntry → List String → List FsOp
  | RemoteEntry.file name id, outDir =>
    let safeName := filesSanitizeFilename name
    if hasDownload then
      match download id with
      | Except.ok content =>
        [FsOp.write (outDir ++ [safeName]) content,
         FsOp.writeText (outDir ++ [safeName ++ ".metadata.json"]) name]
      | Except.error _ => []
    else []
  | RemoteEntry.dir name children, outDir =>
    let safeName := filesSanitizeFilename name
    FsOp.mkdir (outDir ++ [safeName]) ::
      backupEntryListOps hasDownload download children (outDir ++ [safeName])

/-- The per-item loop of `_backup_directory` (files.py lines 79-115) over a
listing. -/
def backupEntryListOps (hasDownload : Bool) (download : Nat → Except String (List Nat)) :
    List RemoteEntry → List String → List FsOp
  | [], _ => []
  | e :: rest, outDir =>
    backupEntryOps hasDownload download e outDir
      ++ backupEntryListOps hasDownload download rest outDir

end

/-- Shallow embedding of `_backup_directory` (files.py lines 54-118) at the
root listing, given the set of methods the client actually defines.  The
whole body is wrapped in a try/except that catches every exception, logs it
and returns (lines 117-118), so the function never raises to its caller and
its result is just the trace of operations it performed.  When
`get_shared_files` is not among the client methods, the very first statement
of the try block raises `AttributeError` and the trace is empty. -/
def backupDirectoryOps (methods : List String)
    (download : Nat → Except String (List Nat))
    (rootListing : List RemoteEntry) (outDir : List String) : List FsOp :=
  if "get_shared_files" ∈ methods then
    backupEntryListOps ("download_shared_file" ∈ methods) download rootListing outDir
  else []

/-- Shallow embedding of `backup_files` (files.py lines 14-51):
create `output_dir / "files"`, fetch the project, and recurse from the
virtual root.  `projectLookup` models `client.get_project(project_key)`:
an exception there is re-raised by the outer except (lines 49-51); a falsy
result returns early (lines 38-40).  The result pairs the exception that
escapes (if any) with the filesystem trace. -/
def backupFiles (methods : List String)
    (download : Nat → Except String (List Nat))
    (projectLookup : Except String Bool)
    (rootListing : List RemoteEntry) (outputDir : List String) :
    Option String × List FsOp :=
  let filesDir := outputDir ++ ["files"]
  match projectLookup with
  | Except.error e => (some e, [FsOp.mkdir filesDir])
  | Except.ok false => (none, [FsOp.mkdir filesDir])
  | Except.ok true =>
    (none, FsOp.mkdir filesDir ::
      backupDirectoryOps methods download rootListing filesDir)

/-! ## Concrete fixtures used by witnesses and counterexamples -/

/-- A 429 response carrying `Retry-After: 1`. -/
def resp429sec1 : HttpResponse :=
  ⟨429, some 1, true, true, [("message", "Rate limit exceeded")], []⟩

/-- A 200 response with a JSON payload. -/
def resp200json : HttpResponse :=
  ⟨200, none, true, true, [("id", "1")], []⟩

/-- A 429 response without a Retry-After header. -/
def resp429noHeader : HttpResponse :=
  ⟨429, none, true, true, [], []⟩

/-- A 404 response whose body parses as a structured Backlog error. -/
def resp404parseable : HttpResponse :=
  ⟨404, none, true, true, [("errors", "No such issue")], []⟩

/-- A structured payload that an error endpoint might return with status
200, mirroring the fixture of tests/test_download.py line 71. -/
def errJsonPayload : Payload :=
  Payload.json [("error", "Not found")]

/-- An exporter-behaviour sample where the issues exporter raises and every
other exporter would succeed with no filesystem activity. -/
def issuesFailingRun : Exporter → Option PyErr × List FsOp :=
  fun e =>
    match e with
    | Exporter.issues => (some (PyErr.valueError "boom"), [])
    | _ => (none, [])

/-! # Theorems -/

/-- Helper: a non-429 response in the 2xx range decodes to a successful
payload with no sleeps. -/
theorem makeRequest_success (r : HttpResponse) (rest : List HttpResponse)
    (h200 : 200 ≤ r.status) (h300 : r.status < 300) :
    makeRequest (r :: rest) = (RequestOutcome.success (decodePayload r), []) := by
  unfold makeRequest
  rw [if_neg (by omega), if_neg (by omega)]

/-- C6: on HTTP 429 the transport sleeps for the Retry-After duration
(default 60 when the header is absent) and retries the same request, with no
cap on the number of retries: any finite burst of 429 responses followed by
a 2xx response yields the successful payload, one sleep per 429, and the
429s are never surfaced as a failure. -/
theorem c6_throttle_retry (burst : List HttpResponse)
    (hb : ∀ r ∈ burst, r.status = 429) (ok : HttpResponse)
    (h200 : 200 ≤ ok.status) (h300 : ok.status < 300) :
    makeRequest (burst ++ [ok]) =
      (RequestOutcome.success (decodePayload ok),
       burst.map (fun r => r.retryAfterHeader.getD 60)) := by
  induction burst with
  | nil =>
    simpa using makeRequest_success ok [] h200 h300
  | cons r rest ih =>
    have hr : r.status = 429 := hb r (List.mem_cons_self r rest)
    have ihr := ih (fun x hx => hb x (List.mem_cons_of_mem r hx))
    simp only [List.cons_append, makeRequest, hr, List.map_cons]
    simp [ihr]

/-- Witness for C6 at the concrete scenario of spec section 8 point 3:
a 429 with Retry-After 1 followed by a 200 yields the successful payload
and exactly one sleep of 1 second. -/
theorem c6_throttle_retry_witness :
    (∀ r ∈ [resp429sec1], r.status = 429) ∧
    200 ≤ resp200json.status ∧ resp200json.status < 300 ∧
    makeRequest [resp429sec1, resp200json] =
      (RequestOutcome.success (Payload.json [("id", "1")]), [1]) := by
  refine ⟨by decide, by decide, by decide, ?_⟩
  have h := c6_throttle_retry [resp429sec1] (by decide) resp200json
    (by decide) (by decide)
  simpa using h

/-- C7 (divergence of the code from the claim): for the 404 response with a
parseable structured error body, `_make_request` fails with the raw-message
error, not with the parsed detail the claim describes: the inner
`raise ValueError("API Error: {error_detail}")` of client.py line 88 is
caught by its own `except (ValueError, KeyError)` clause on line 89, so the
code always falls through to `raise ValueError("API request failed: ...")`
on line 91. -/
theorem c7_raw_error_always :
    makeRequest [resp404parseable] = (RequestOutcome.apiRawError 404, []) ∧
    specifiedErrorOutcome resp404parseable =
      RequestOutcome.apiDetailError 404 [("errors", "No such issue")] ∧
    (makeRequest [resp404parseable]).1 ≠ specifiedErrorOutcome resp404parseable := by
  refine ⟨by decide, by decide, by decide⟩

/-- C5 (divergence of the code from the claim and from the test suite):
`download_attachment` rejects a structured payload with the expected-binary
error and returns bytes unchanged, but `download_wiki_attachment` returns
the structured payload as content - there is no binary check in its body,
although tests/test_download.py (test_download_wiki_attachment_invalid_response)
asserts that it raises. -/
theorem c5_wiki_download_missing_binary_check :
    downloadWikiAttachmentFrom errJsonPayload = Except.ok errJsonPayload ∧
    downloadAttachmentFrom errJsonPayload =
      Except.error "Expected binary content for attachment download" ∧
    (∀ b : List Nat, downloadAttachmentFrom (Payload.bytes b) = Except.ok b) ∧
    (∀ b : List Nat,
      downloadWikiAttachmentFrom (Payload.bytes b) = Except.ok (Payload.bytes b)) :=
  ⟨rfl, rfl, fun _ => rfl, fun _ => rfl⟩

/-- C3 (counterexample): against a remote collection of 3 issues and a page
cap of 2, `get_issues` returns 2 items, not the 3 the claim requires for
N = P + 1; there is no count/offset pagination loop in the source. -/
theorem c3_counterexample :
    getIssues [1, 2, 3] 2 7 = [1, 2] ∧
    (getIssues [1, 2, 3] 2 7).length ≠ 3 ∧
    getIssuesRequestParams 7 = [("projectId", 7)] := by
  refine ⟨by decide, by decide, rfl⟩

/-- C3 (amended): `get_issues` performs exactly one request, with only the
project-id filter as parameter, and therefore returns only the first page
the endpoint serves: `take pageCap` of the collection, which is the whole
collection exactly when its size is at most the page cap. -/
theorem c3_single_page_only (issues : List Nat) (pageCap projectId : Nat) :
    getIssues issues pageCap projectId = issues.take pageCap ∧
    (getIssues issues pageCap projectId).length = min issues.length pageCap ∧
    (issues.length ≤ pageCap → getIssues issues pageCap projectId = issues) := by
  have hofs : (getIssuesRequestParams projectId).lookup "offset" = none := rfl
  have hcnt : (getIssuesRequestParams projectId).lookup "count" = none := rfl
  have hmain : getIssues issues pageCap projectId = issues.take pageCap := by
    unfold getIssues issuesEndpointResponse
    rw [hofs, hcnt]
    simp
  refine ⟨hmain, ?_, ?_⟩
  · rw [hmain, List.length_take]
    exact Nat.min_comm pageCap issues.length
  · intro hle
    rw [hmain]
    exact List.take_of_length_le hle

/-- Witness for C3 (amended) at a concrete collection that fits in one
page. -/
theorem c3_single_page_only_witness :
    ([4, 5] : List Nat).length ≤ 5 ∧ getIssues [4, 5] 5 9 = [4, 5] := by
  refine ⟨by decide, ?_⟩
  exact (c3_single_page_only [4, 5] 5 9).2.2 (by decide)

/-- C1 (counterexample): with the local mirror directory already present,
the git operation run is still `git clone --mirror` (not `git pull --all`)
and the svn operation is still `svn checkout` (not `svn update`): the
commands built by `_clone_repository` and `_backup_svn_repository` do not
depend on the directory state at all. -/
theorem c1_counterexample :
    cloneRepositoryCmd "example.backlog.com" "PROJ" "repo1"
        ["backup", "PROJ", "git"] true =
      ["git", "clone", "--mirror",
       "https://example.backlog.com/git/PROJ/repo1.git",
       "backup/PROJ/git/repo1.git"] ∧
    "pull" ∉ cloneRepositoryCmd "example.backlog.com" "PROJ" "repo1"
        ["backup", "PROJ", "git"] true ∧
    (svnBackupCmd "example.backlog.com" "PROJ" "repo2"
        ["backup", "PROJ", "svn"] none true).take 2 = ["svn", "checkout"] ∧
    "update" ∉ svnBackupCmd "example.backlog.com" "PROJ" "repo2"
        ["backup", "PROJ", "svn"] none true := by
  refine ⟨by decide, by decide, by decide, by decide⟩

/-- C1 (amended): for every repository being mirrored the operation invoked
is the full mirror operation (git: clone --mirror; svn: checkout),
unconditionally: the command is the same whether the local directory exists
or not, a run is reported successful exactly when the subprocess exits 0
(non-zero exit and timeout are per-repository failures), and the
per-repository loop still processes every sibling repository. -/
theorem c1_mirror_always_full (domain projectKey repoName : String)
    (gitDir svnDir : List String) (creds : Option (String × String))
    (dirExists otherState : Bool) (mirror : String → Bool)
    (repos : List String) :
    cloneRepositoryCmd domain projectKey repoName gitDir dirExists =
      cloneRepositoryCmd domain projectKey repoName gitDir otherState ∧
    (cloneRepositoryCmd domain projectKey repoName gitDir dirExists).take 3 =
      ["git", "clone", "--mirror"] ∧
    svnBackupCmd domain projectKey repoName svnDir creds dirExists =
      svnBackupCmd domain projectKey repoName svnDir creds otherState ∧
    (svnBackupCmd domain projectKey repoName svnDir creds dirExists).take 2 =
      ["svn", "checkout"] ∧
    (∀ pr, mirrorSucceeded pr = true ↔ pr = ProcResult.exit 0) ∧
    (backupReposLoop mirror repos).map Prod.fst = repos := by
  refine ⟨rfl, rfl, rfl, rfl, ?_, ?_⟩
  · intro pr
    cases pr with
    | exit code =>
      cases code with
      | zero => simp [mirrorSucceeded]
      | succ n => simp [mirrorSucceeded]
    | timedOut => simp [mirrorSucceeded]
  · simp only [backupReposLoop, List.map_map]
    exact List.map_id repos

/-- Helper: the head of a `dropWhile` result never satisfies the dropped
predicate. -/
theorem head?_dropWhile_not (p : Char → Bool) :
    ∀ (l : List Char) (c : Char), (l.dropWhile p).head? = some c → p c = false := by
  intro l
  induction l with
  | nil => intro c h; simp [List.dropWhile] at h
  | cons a t ih =>
    intro c h
    rw [List.dropWhile_cons] at h
    by_cases hpa : p a = true
    · rw [if_pos hpa] at h
      exact ih c h
    · rw [if_neg hpa] at h
      simp only [List.head?_cons, Option.some.injEq] at h
      rw [← h]
      exact Bool.eq_false_iff.mpr hpa

/-- Helper: when `dropWhile` leaves something, the last element is
unchanged. -/
theorem getLast?_dropWhile_eq (p : Char → Bool) :
    ∀ (l : List Char), l.dropWhile p ≠ [] →
      (l.dropWhile p).getLast? = l.getLast? := by
  intro l
  induction l with
  | nil => intro h; simp [List.dropWhile] at h
  | cons a t ih =>
    intro h
    rw [List.dropWhile_cons] at h ⊢
    by_cases hpa : p a = true
    · rw [if_pos hpa] at h ⊢
      rw [ih h]
      match t, h with
      | b :: t2, _ => rw [List.getLast?_cons_cons]
    · rw [if_neg hpa]

/-- Helper: membership in a `dropWhile` result implies membership in the
original list. -/
theorem mem_of_mem_dropWhile (p : Char → Bool) (l : List Char) (c : Char)
    (h : c ∈ l.dropWhile p) : c ∈ l :=
  (List.dropWhile_sublist p).mem h

/-- The strip predicate of `str.strip(' .')`, as the embedding uses it. -/
theorem stripSpaceDot_head (s : List Char) (c : Char)
    (h : (stripSpaceDot s).head? = some c) : ¬(c = ' ' ∨ c = '.') := by
  unfold stripSpaceDot at h
  rw [List.head?_reverse] at h
  have hne : (s.dropWhile (fun c => c = ' ' ∨ c = '.')).reverse.dropWhile
      (fun c => c = ' ' ∨ c = '.') ≠ [] := by
    intro heq
    rw [heq] at h
    simp at h
  rw [getLast?_dropWhile_eq _ _ hne, List.getLast?_reverse] at h
  have := head?_dropWhile_not (fun c => decide (c = ' ' ∨ c = '.')) s c h
  simpa using this

/-- The last character of a stripped string is not a space or dot. -/
theorem stripSpaceDot_last (s : List Char) (c : Char)
    (h : (stripSpaceDot s).getLast? = some c) : ¬(c = ' ' ∨ c = '.') := by
  unfold stripSpaceDot at h
  rw [List.getLast?_reverse] at h
  have := head?_dropWhile_not (fun c => decide (c = ' ' ∨ c = '.'))
    (s.dropWhile (fun c => c = ' ' ∨ c = '.')).reverse c h
  simpa using this

/-- Stripping only removes characters. -/
theorem stripSpaceDot_subset (s : List Char) (c : Char)
    (h : c ∈ stripSpaceDot s) : c ∈ s := by
  unfold stripSpaceDot at h
  rw [List.mem_reverse] at h
  have h2 := mem_of_mem_dropWhile _ _ _ h
  rw [List.mem_reverse] at h2
  exact mem_of_mem_dropWhile _ _ _ h2

/-- Stripping never lengthens. -/
theorem stripSpaceDot_length_le (s : List Char) :
    (stripSpaceDot s).length ≤ s.length := by
  unfold stripSpaceDot
  rw [List.length_reverse]
  calc ((s.dropWhile (fun c => c = ' ' ∨ c = '.')).reverse.dropWhile
          (fun c => c = ' ' ∨ c = '.')).length
      ≤ (s.dropWhile (fun c => c = ' ' ∨ c = '.')).reverse.length :=
        (List.dropWhile_sublist _).length_le
    _ = (s.dropWhile (fun c => c = ' ' ∨ c = '.')).length := List.length_reverse _
    _ ≤ s.length := (List.dropWhile_sublist _).length_le

/-- Characters of the substituted string are never illegal: each illegal
character was replaced by an underscore. -/
theorem mem_subbed_not_illegal (s : List Char) (c : Char)
    (h : c ∈ s.map (fun c => if c ∈ illegalFilenameChars then '_' else c)) :
    c ∉ illegalFilenameChars := by
  rcases List.mem_map.mp h with ⟨a, _, ha⟩
  by_cases hil : a ∈ illegalFilenameChars
  · rw [if_pos hil] at ha
    rw [← ha]
    decide
  · rw [if_neg hil] at ha
    rw [← ha]
    exact hil

/-- Core property of the shared sanitization routine: for inputs of length
at most 200 the result is non-empty, contains no illegal character, and has
no leading or trailing space or dot - provided the fallback name itself has
these properties. -/
theorem sanitizeCore_safe (fallback s : List Char) (hs : s.length ≤ 200)
    (hfb1 : fallback ≠ [])
    (hfb2 : ∀ c ∈ fallback, c ∉ illegalFilenameChars)
    (hfb3 : ∀ c, fallback.head? = some c → ¬(c = ' ' ∨ c = '.'))
    (hfb4 : ∀ c, fallback.getLast? = some c → ¬(c = ' ' ∨ c = '.')) :
    sanitizeCore fallback s ≠ [] ∧
    (∀ c ∈ sanitizeCore fallback s, c ∉ illegalFilenameChars) ∧
    (∀ c, (sanitizeCore fallback s).head? = some c → ¬(c = ' ' ∨ c = '.')) ∧
    (∀ c, (sanitizeCore fallback s).getLast? = some c → ¬(c = ' ' ∨ c = '.')) := by
  simp only [sanitizeCore]
  set subbed := s.map (fun c => if c ∈ illegalFilenameChars then '_' else c) with hsub
  set stripped := stripSpaceDot subbed with hstr
  have hlensub : subbed.length = s.length := List.length_map s _
  have hlen : stripped.length ≤ 200 := by
    calc stripped.length ≤ subbed.length := stripSpaceDot_length_le subbed
      _ = s.length := hlensub
      _ ≤ 200 := hs
  have hcap : ¬(200 < stripped.length) := by omega
  rw [if_neg hcap]
  by_cases hemp : stripped = []
  · rw [if_pos hemp]
    exact ⟨hfb1, hfb2, hfb3, hfb4⟩
  · rw [if_neg hemp]
    refine ⟨hemp, ?_, ?_, ?_⟩
    · intro c hc
      exact mem_subbed_not_illegal s c (stripSpaceDot_subset subbed c hc)
    · intro c hc
      exact stripSpaceDot_head subbed c hc
    · intro c hc
      exact stripSpaceDot_last subbed c hc

/-- Helper: an edge-character property transfers along a known concrete
edge value. -/
theorem option_char_safe (o : Option Char) (d : Char) (hd : o = some d)
    (hdp : ¬(d = ' ' ∨ d = '.')) :
    ∀ c, o = some c → ¬(c = ' ' ∨ c = '.') := by
  intro c hc
  rw [hd] at hc
  injection hc with h
  rw [h] at hdp
  exact hdp

/-- C9 (amended): for every input of length at most 200, both copies of
`_sanitize_filename` return a string that is non-empty, contains none of the
characters of the illegal class, and has no leading or trailing space or
dot. -/
theorem c9_sanitize_safe (s : String) (hlen : s.toList.length ≤ 200) :
    (wikiSanitizeFilename s).toList ≠ [] ∧
    (∀ c ∈ (wikiSanitizeFilename s).toList, c ∉ illegalFilenameChars) ∧
    (∀ c, (wikiSanitizeFilename s).toList.head? = some c → ¬(c = ' ' ∨ c = '.')) ∧
    (∀ c, (wikiSanitizeFilename s).toList.getLast? = some c → ¬(c = ' ' ∨ c = '.')) ∧
    (filesSanitizeFilename s).toList ≠ [] ∧
    (∀ c ∈ (filesSanitizeFilename s).toList, c ∉ illegalFilenameChars) ∧
    (∀ c, (filesSanitizeFilename s).toList.head? = some c → ¬(c = ' ' ∨ c = '.')) ∧
    (∀ c, (filesSanitizeFilename s).toList.getLast? = some c → ¬(c = ' ' ∨ c = '.')) := by
  have hw := sanitizeCore_safe "unnamed_page".toList s.toList hlen
    (by decide) (by decide)
    (option_char_safe _ 'u' (by decide) (by decide))
    (option_char_safe _ 'e' (by decide) (by decide))
  have hf := sanitizeCore_safe "unnamed_file".toList s.toList hlen
    (by decide) (by decide)
    (option_char_safe _ 'u' (by decide) (by decide))
    (option_char_safe _ 'e' (by decide) (by decide))
  exact ⟨hw.1, hw.2.1, hw.2.2.1, hw.2.2.2, hf.1, hf.2.1, hf.2.2.1, hf.2.2.2⟩

/-- Witness for C9 (amended) at the concrete input of spec section 8
point 5. -/
theorem c9_sanitize_safe_witness :
    "My:File/Name*.txt".toList.length ≤ 200 ∧
    ((wikiSanitizeFilename "My:File/Name*.txt").toList ≠ [] ∧
     (∀ c ∈ (wikiSanitizeFilename "My:File/Name*.txt").toList,
        c ∉ illegalFilenameChars) ∧
     (∀ c, (wikiSanitizeFilename "My:File/Name*.txt").toList.head? = some c →
        ¬(c = ' ' ∨ c = '.')) ∧
     (∀ c, (wikiSanitizeFilename "My:File/Name*.txt").toList.getLast? = some c →
        ¬(c = ' ' ∨ c = '.')) ∧
     (filesSanitizeFilename "My:File/Name*.txt").toList ≠ [] ∧
     (∀ c ∈ (filesSanitizeFilename "My:File/Name*.txt").toList,
        c ∉ illegalFilenameChars) ∧
     (∀ c, (filesSanitizeFilename "My:File/Name*.txt").toList.head? = some c →
        ¬(c = ' ' ∨ c = '.')) ∧
     (∀ c, (filesSanitizeFilename "My:File/Name*.txt").toList.getLast? = some c →
        ¬(c = ' ' ∨ c = '.'))) :=
  ⟨by decide, c9_sanitize_safe "My:File/Name*.txt" (by decide)⟩

/-- C9 (counterexample): an input consisting entirely of illegal characters
does not sanitize to the generic fallback name: every illegal character is
replaced by an underscore, so the result is a string of underscores; the
fallback fires only when stripping leaves the string empty (an input of
spaces and dots only). -/
theorem c9_counterexample :
    (∀ c ∈ "***".toList, c ∈ illegalFilenameChars) ∧
    wikiSanitizeFilename "***" = "___" ∧
    filesSanitizeFilename "***" = "___" ∧
    wikiSanitizeFilename "***" ≠ "unnamed_page" ∧
    filesSanitizeFilename "***" ≠ "unnamed_file" ∧
    wikiSanitizeFilename " .. " = "unnamed_page" := by
  refine ⟨by decide, by decide, by decide, by decide, by decide, by decide⟩

/-- Helper: every operation `_download_issue_attachments` performs is either
the creation of the per-issue attachments directory or a write of some
attachment under its raw display name inside that directory. -/
theorem issueAttachmentOps_mem (download : Nat → Except String (List Nat))
    (dir : List String) (key : String) (atts : List AttachmentRec) :
    ∀ op ∈ downloadIssueAttachmentsOps download dir key atts,
      op = FsOp.mkdir (dir ++ ["attachments", key]) ∨
      ∃ att ∈ atts, ∃ content,
        op = FsOp.write (dir ++ ["attachments", key, issueAttachmentFilename att])
          content := by
  intro op hop
  simp only [downloadIssueAttachmentsOps] at hop
  by_cases hnil : atts = []
  · rw [if_pos hnil] at hop
    simp at hop
  · rw [if_neg hnil] at hop
    rcases List.mem_cons.mp hop with h | h
    · left
      exact h
    · right
      rcases List.mem_flatMap.mp h with ⟨att, hatt, hin⟩
      refine ⟨att, hatt, ?_⟩
      rcases hid : att.id with _ | i
      · rw [hid] at hin
        simp at hin
      · rw [hid] at hin
        by_cases hi : i = 0
        · simp [hi] at hin
        · rcases hdl : download i with e | content
          · simp [hi, hdl] at hin
          · simp [hi, hdl] at hin
            refine ⟨content, ?_⟩
            rw [hin]

/-- Helper: an attachment with a present, non-zero id whose download
succeeds is written under its raw display name in the per-issue attachments
directory. -/
theorem issueAttachmentOps_write_mem (download : Nat → Except String (List Nat))
    (dir : List String) (key : String) (atts : List AttachmentRec) :
    ∀ att ∈ atts, ∀ i content, att.id = some i → i ≠ 0 →
      download i = Except.ok content →
      FsOp.write (dir ++ ["attachments", key, issueAttachmentFilename att]) content ∈
        downloadIssueAttachmentsOps download dir key atts := by
  intro att hatt i content hid hi hdl
  have hnil : atts ≠ [] := List.ne_nil_of_mem hatt
  simp only [downloadIssueAttachmentsOps]
  rw [if_neg hnil]
  apply List.mem_cons_of_mem
  apply List.mem_flatMap.mpr
  refine ⟨att, hatt, ?_⟩
  simp [hid, hi, hdl, List.append_assoc]

/-- The wiki attachment loop is the same code as the issue attachment loop,
with the sanitized page name in place of the issue key. -/
theorem wikiAttachmentOps_eq_issueAttachmentOps
    (download : Nat → Except String (List Nat)) (dir : List String)
    (key : String) (atts : List AttachmentRec) :
    downloadWikiAttachmentsOps download dir key atts =
      downloadIssueAttachmentsOps download dir key atts := rfl

/-- C8 (counterexample): the attachment display name is used as the local
filename without any sanitization - a display name containing a path
separator (an illegal filename character) is used verbatim, for issue and
wiki attachments alike. -/
theorem c8_counterexample :
    issueAttachmentFilename ⟨some 7, some "a/b.txt"⟩ = "a/b.txt" ∧
    wikiAttachmentFilename ⟨some 7, some "a/b.txt"⟩ = "a/b.txt" ∧
    '/' ∈ "a/b.txt".toList ∧
    '/' ∈ illegalFilenameChars ∧
    issueAttachmentFilename ⟨some 7, some "a/b.txt"⟩ ≠
      filesSanitizeFilename "a/b.txt" := by
  refine ⟨rfl, rfl, by decide, by decide, by decide⟩

/-- C8 (amended): every file an attachment loop writes goes into the
per-issue (respectively per-page) attachments subfolder, under the
attachment's raw display name (fallback `attachment_<id>` when the name is
absent) - no sanitization is applied to it; and every attachment with a
present non-zero id whose download succeeds is indeed written there. -/
theorem c8_attachment_paths (download : Nat → Except String (List Nat))
    (issuesDir wikiDir : List String) (issueKey safePageName : String)
    (atts : List AttachmentRec) :
    (∀ op ∈ downloadIssueAttachmentsOps download issuesDir issueKey atts,
      op = FsOp.mkdir (issuesDir ++ ["attachments", issueKey]) ∨
      ∃ att ∈ atts, ∃ content,
        op = FsOp.write
          (issuesDir ++ ["attachments", issueKey, issueAttachmentFilename att])
          content) ∧
    (∀ att ∈ atts, ∀ i content, att.id = some i → i ≠ 0 →
      download i = Except.ok content →
      FsOp.write (issuesDir ++ ["attachments", issueKey, issueAttachmentFilename att])
          content ∈
        downloadIssueAttachmentsOps download issuesDir issueKey atts) ∧
    (∀ op ∈ downloadWikiAttachmentsOps download wikiDir safePageName atts,
      op = FsOp.mkdir (wikiDir ++ ["attachments", safePageName]) ∨
      ∃ att ∈ atts, ∃ content,
        op = FsOp.write
          (wikiDir ++ ["attachments", safePageName, wikiAttachmentFilename att])
          content) ∧
    (∀ att ∈ atts, ∀ i content, att.id = some i → i ≠ 0 →
      download i = Except.ok content →
      FsOp.write (wikiDir ++ ["attachments", safePageName, wikiAttachmentFilename att])
          content ∈
        downloadWikiAttachmentsOps download wikiDir safePageName atts) := by
  refine ⟨issueAttachmentOps_mem download issuesDir issueKey atts,
          issueAttachmentOps_write_mem download issuesDir issueKey atts, ?_, ?_⟩
  · rw [wikiAttachmentOps_eq_issueAttachmentOps]
    exact issueAttachmentOps_mem download wikiDir safePageName atts
  · rw [wikiAttachmentOps_eq_issueAttachmentOps]
    exact issueAttachmentOps_write_mem download wikiDir safePageName atts

/-- Witness for C8 (amended): one concrete attachment with id 7 and name
`a.txt`, downloaded successfully, is written into
`issues/attachments/K-1/a.txt`. -/
theorem c8_attachment_paths_witness :
    (⟨some 7, some "a.txt"⟩ : AttachmentRec) ∈
      [(⟨some 7, some "a.txt"⟩ : AttachmentRec)] ∧
    (⟨some 7, some "a.txt"⟩ : AttachmentRec).id = some 7 ∧
    (7 : Nat) ≠ 0 ∧
    (fun _ : Nat => Except.ok (ε := String) [9]) 7 = Except.ok [9] ∧
    FsOp.write ["issues", "attachments", "K-1", "a.txt"] [9] ∈
      downloadIssueAttachmentsOps (fun _ => Except.ok [9]) ["issues"] "K-1"
        [⟨some 7, some "a.txt"⟩] := by
  refine ⟨by decide, rfl, by decide, rfl, ?_⟩
  have h := (c8_attachment_paths (fun _ => Except.ok [9]) ["issues"] ["w"] "K-1" "p"
    [⟨some 7, some "a.txt"⟩]).2.1 ⟨some 7, some "a.txt"⟩ (by decide) 7 [9] rfl
    (by decide) rfl
  simpa using h

/-- Helper: every exporter invocation made with the argument tuple
`(domain, api_key, project_key, project_output_dir)` raises before touching
the filesystem: a binding TypeError for the three-parameter exporters, a
path-operator TypeError for the five-parameter ones. -/
theorem cliExporterRun_fails (domain apiKey projectKey : String)
    (projectDir : List String) :
    ∀ e, cliExporterRun domain apiKey projectKey projectDir e =
      (some (match e with
             | Exporter.issues => PyErr.typeErrorTooManyArgs
             | Exporter.wiki => PyErr.typeErrorTooManyArgs
             | Exporter.files => PyErr.typeErrorTooManyArgs
             | Exporter.git => PyErr.typeErrorUnsupportedDiv
             | Exporter.svn => PyErr.typeErrorUnsupportedDiv), []) := by
  intro e
  cases e <;> rfl

/-- Helper: a failing head exporter ends the try-block sequence at once. -/
theorem runExporterSequence_cons_fail (run : Exporter → Option PyErr × List FsOp)
    (e : Exporter) (rest : List Exporter) (err : PyErr) (ops : List FsOp)
    (he : run e = (some err, ops)) :
    runExporterSequence run (e :: rest) = ([e], some err, ops) := by
  simp [runExporterSequence, he]

/-- Helper: after a clean run of the exporters in `pre`, a failure at `e`
ends the sequence: the invoked list is `pre ++ [e]` and the caught exception
is the one `e` raised; the exporters in `post` are never invoked. -/
theorem runExporterSequence_append_fail (run : Exporter → Option PyErr × List FsOp) :
    ∀ (pre : List Exporter), (∀ e' ∈ pre, (run e').1 = none) →
      ∀ (e : Exporter) (post : List Exporter) (err : PyErr) (ops : List FsOp),
        run e = (some err, ops) →
        (runExporterSequence run (pre ++ e :: post)).1 = pre ++ [e] ∧
        (runExporterSequence run (pre ++ e :: post)).2.1 = some err := by
  intro pre
  induction pre with
  | nil =>
    intro _ e post err ops he
    rw [List.nil_append]
    rw [runExporterSequence_cons_fail run e post err ops he]
    exact ⟨rfl, rfl⟩
  | cons a t ih =>
    intro hpre e post err ops he
    have ha : (run a).1 = none := hpre a (List.mem_cons_self a t)
    have ha2 : run a = (none, (run a).2) := by
      rw [← ha]
    have iht := ih (fun x hx => hpre x (List.mem_cons_of_mem a hx)) e post err ops he
    rw [List.cons_append]
    simp only [runExporterSequence]
    rw [ha2]
    simp only []
    constructor
    · simp only [List.cons_append]
      rw [iht.1]
    · exact iht.2

/-- C2 (counterexample): with every domain selected, only the issues
exporter is ever invoked (the wiki exporter is skipped because the single
try block of `backup_project` is left at the first exception), and the
exception raised is the argument-binding TypeError of the four-positional
call against the three-positional signature, not an exception from an
attribute or path operation in the exporter body. -/
theorem c2_counterexample :
    (backupProject
      (cliExporterRun "example.backlog.com" "KEY" "PROJ" ["backup", "PROJ"])
      ⟨true, true, true, true, true⟩ ["backup", "PROJ"]).invoked =
        [Exporter.issues] ∧
    Exporter.wiki ∉ (backupProject
      (cliExporterRun "example.backlog.com" "KEY" "PROJ" ["backup", "PROJ"])
      ⟨true, true, true, true, true⟩ ["backup", "PROJ"]).invoked ∧
    (backupProject
      (cliExporterRun "example.backlog.com" "KEY" "PROJ" ["backup", "PROJ"])
      ⟨true, true, true, true, true⟩ ["backup", "PROJ"]).caught =
        some PyErr.typeErrorTooManyArgs ∧
    (backupProject
      (cliExporterRun "example.backlog.com" "KEY" "PROJ" ["backup", "PROJ"])
      ⟨true, true, true, true, true⟩ ["backup", "PROJ"]).ops =
        [FsOp.mkdir ["backup", "PROJ"]] := by
  refine ⟨by decide, by decide, by decide, by decide⟩

/-- C2 (amended): `backup_project` passes
`(domain, api_key, project_key, project_output_dir)` positionally to the
exporters; every exporter invocation with this tuple raises a TypeError
before performing any filesystem operation (at argument binding for
issues/wiki/files, at the first path operation for git/svn), the first
selected exporter is the only one invoked, its exception is caught inside
`backup_project`, nothing beyond the project directory itself is created,
and `main` still returns exit code 0. -/
theorem c2_miscalled_exporters (domain apiKey projectKey : String)
    (outputDir projectDir : List String) (flags : Flags)
    (e : Exporter) (rest : List Exporter)
    (hsel : selectedExporters flags = e :: rest) :
    (∀ e', (cliExporterRun domain apiKey projectKey projectDir e').1.isSome ∧
           (cliExporterRun domain apiKey projectKey projectDir e').2 = []) ∧
    ((e = Exporter.issues ∨ e = Exporter.wiki ∨ e = Exporter.files) →
      (cliExporterRun domain apiKey projectKey projectDir e).1 =
        some PyErr.typeErrorTooManyArgs) ∧
    ((e = Exporter.git ∨ e = Exporter.svn) →
      (cliExporterRun domain apiKey projectKey projectDir e).1 =
        some PyErr.typeErrorUnsupportedDiv) ∧
    backupProject (cliExporterRun domain apiKey projectKey projectDir) flags
        projectDir =
      ⟨[e], (cliExporterRun domain apiKey projectKey projectDir e).1,
       [FsOp.mkdir projectDir]⟩ ∧
    (mainSingleProject (cliExporterRun domain apiKey projectKey projectDir)
        projectKey flags outputDir).2 = 0 := by
  have hfail := cliExporterRun_fails domain apiKey projectKey projectDir
  refine ⟨?_, ?_, ?_, ?_, rfl⟩
  · intro e'
    rw [hfail e']
    exact ⟨rfl, rfl⟩
  · intro h
    rcases h with rfl | rfl | rfl <;> rw [hfail]
  · intro h
    rcases h with rfl | rfl <;> rw [hfail]
  · have hseq := runExporterSequence_cons_fail
      (cliExporterRun domain apiKey projectKey projectDir) e rest _ _ (hfail e)
    simp only [backupProject, hsel, hseq]
    rw [hfail e]

/-- Witness for C2 (amended) with all five domains selected. -/
theorem c2_miscalled_exporters_witness :
    selectedExporters ⟨true, true, true, true, true⟩ =
      Exporter.issues ::
        [Exporter.wiki, Exporter.files, Exporter.git, Exporter.svn] ∧
    backupProject
        (cliExporterRun "example.backlog.com" "KEY" "PROJ" ["backup", "PROJ"])
        ⟨true, true, true, true, true⟩ ["backup", "PROJ"] =
      ⟨[Exporter.issues], some PyErr.typeErrorTooManyArgs,
       [FsOp.mkdir ["backup", "PROJ"]]⟩ ∧
    (mainSingleProject
        (cliExporterRun "example.backlog.com" "KEY" "PROJ" ["backup", "PROJ"])
        "PROJ" ⟨true, true, true, true, true⟩ ["backup"]).2 = 0 := by
  have h := c2_miscalled_exporters "example.backlog.com" "KEY" "PROJ"
    ["backup"] ["backup", "PROJ"] ⟨true, true, true, true, true⟩
    Exporter.issues [Exporter.wiki, Exporter.files, Exporter.git, Exporter.svn]
    rfl
  refine ⟨rfl, ?_, h.2.2.2.2⟩
  rw [h.2.2.2.1]
  rfl

/-- C4 (counterexample): with issues and wiki selected and the issues
exporter failing, the wiki exporter is never invoked: the single try block
of `backup_project` does not resume after the caught exception. -/
theorem c4_counterexample :
    (backupProject issuesFailingRun ⟨true, true, false, false, false⟩
      ["out", "P"]).caught = some (PyErr.valueError "boom") ∧
    (backupProject issuesFailingRun ⟨true, true, false, false, false⟩
      ["out", "P"]).invoked = [Exporter.issues] ∧
    Exporter.wiki ∉ (backupProject issuesFailingRun
      ⟨true, true, false, false, false⟩ ["out", "P"]).invoked := by
  refine ⟨by decide, by decide, by decide⟩

/-- C4 (amended): when a selected exporter raises after the ones before it
ran cleanly, `backup_project` catches and logs the exception and returns
normally, but the selected exporters after the failing one are skipped;
in a multi-project run every listed project is still processed and `main`
returns 0. -/
theorem c4_exporter_failure_handling (run : Exporter → Option PyErr × List FsOp)
    (flags : Flags) (projectDir : List String)
    (pre : List Exporter) (e : Exporter) (post : List Exporter)
    (err : PyErr) (ops : List FsOp)
    (hsel : selectedExporters flags = pre ++ e :: post)
    (hpre : ∀ e' ∈ pre, (run e').1 = none)
    (he : run e = (some err, ops)) :
    (backupProject run flags projectDir).invoked = pre ++ [e] ∧
    (backupProject run flags projectDir).caught = some err ∧
    (∀ (runFor : String → Exporter → Option PyErr × List FsOp)
       (projectKeys outputDir : List String),
      (mainAllProjects runFor projectKeys flags outputDir).1.map Prod.fst =
        projectKeys ∧
      (mainAllProjects runFor projectKeys flags outputDir).2 = 0) := by
  have hseq := runExporterSequence_append_fail run pre hpre e post err ops he
  refine ⟨?_, ?_, ?_⟩
  · simp only [backupProject, hsel]
    exact hseq.1
  · simp only [backupProject, hsel]
    exact hseq.2
  · intro runFor projectKeys outputDir
    constructor
    · simp only [mainAllProjects, List.map_map]
      exact List.map_id projectKeys
    · rfl

/-- Witness for C4 (amended): issues and wiki selected, issues failing, two
projects listed. -/
theorem c4_exporter_failure_handling_witness :
    selectedExporters ⟨true, true, false, false, false⟩ =
      [] ++ Exporter.issues :: [Exporter.wiki] ∧
    (∀ e' ∈ ([] : List Exporter), (issuesFailingRun e').1 = none) ∧
    issuesFailingRun Exporter.issues = (some (PyErr.valueError "boom"), []) ∧
    (backupProject issuesFailingRun ⟨true, true, false, false, false⟩
      ["out", "P"]).invoked = [] ++ [Exporter.issues] ∧
    (backupProject issuesFailingRun ⟨true, true, false, false, false⟩
      ["out", "P"]).caught = some (PyErr.valueError "boom") ∧
    (mainAllProjects (fun _ => issuesFailingRun) ["P1", "P2"]
      ⟨true, true, false, false, false⟩ ["out"]).1.map Prod.fst = ["P1", "P2"] ∧
    (mainAllProjects (fun _ => issuesFailingRun) ["P1", "P2"]
      ⟨true, true, false, false, false⟩ ["out"]).2 = 0 := by
  have h := c4_exporter_failure_handling issuesFailingRun
    ⟨true, true, false, false, false⟩ ["out", "P"]
    [] Exporter.issues [Exporter.wiki] (PyErr.valueError "boom") []
    rfl (by intro e' he'; simp at he') rfl
  exact ⟨rfl, by intro e' he'; simp at he', rfl, h.1, h.2.1,
    (h.2.2 (fun _ => issuesFailingRun) ["P1", "P2"] ["out"]).1,
    (h.2.2 (fun _ => issuesFailingRun) ["P1", "P2"] ["out"]).2⟩

/-- C10: the API client defines neither `get_shared_files` nor
`download_shared_file`; consequently, whatever the remote file tree and the
would-be download behaviour, the traversal of `_backup_directory` performs
no filesystem operation at all (the AttributeError of its first listing is
caught and logged inside it) and `backup_files` returns normally having
created only the `files` directory. -/
theorem c10_files_traversal (download : Nat → Except String (List Nat))
    (rootListing : List RemoteEntry) (outputDir : List String) :
    "get_shared_files" ∉ backlogClientMethods ∧
    "download_shared_file" ∉ backlogClientMethods ∧
    backupDirectoryOps backlogClientMethods download rootListing
      (outputDir ++ ["files"]) = [] ∧
    backupFiles backlogClientMethods download (Except.ok true) rootListing
      outputDir = (none, [FsOp.mkdir (outputDir ++ ["files"])]) := by
  have hdir : ∀ out, backupDirectoryOps backlogClientMethods download rootListing
      out = [] := by
    intro out
    simp only [backupDirectoryOps]
    rw [if_neg (by decide)]
  refine ⟨by decide, by decide, hdir _, ?_⟩
  simp only [backupFiles, hdir]

end BacklogBackup
